import Mathlib

/-!
Shallow embedding of the `weathersensor` Go module (package `models`):
configuration validation (`Config.Validate`), reconfiguration
(`Reconfigure`), the HTTP fetch helper (`getWeatherBodyOrCode`) and the
composite reading operation (`Readings`).

Modelling conventions:
* Go `interface{}` values holding decoded JSON are modelled by the
  inductive `Json`; the Go nil interface (also produced by looking up a
  missing key in a `map[string]any`) is `Json.null`.
* A Go `map[string]any` is an association list `List (String × Json)`;
  Go map indexing returns the stored value or the nil interface
  (`jGet`), and Go map assignment replaces or appends (`jInsert`).
* Go JSON numbers decode to `float64`; they are modelled by `Rat`.
* A failed Go type assertion (`x.(map[string]any)`, `x.(float64)`)
  panics; a panic is the `Outcome.panic` result.
* The HTTP layer is an input: a `FetchResult` is either a transport-level
  failure (request creation, send, or body read error) or a response
  with a status code and the result of `json.Unmarshal` on its body.
* The dependency temperature sensor is an input: a function from the
  `extra` argument it receives to its `Readings` result.
-/

namespace WeatherSensor

/-- A decoded JSON value as held in a Go `interface{}`.  `null` is the Go
nil interface (missing map key, or JSON null). -/
inductive Json where
  | null : Json
  | bool (b : Bool) : Json
  | num (q : Rat) : Json
  | str (s : String) : Json
  | arr (elems : List Json) : Json
  | obj (fields : List (String × Json)) : Json

/-- A Go `map[string]any` of decoded JSON values. -/
abbrev JObj := List (String × Json)

/-- Go comma-ok map lookup `v, ok := m[k]`: the first binding of `k`. -/
def jLookup (m : JObj) (k : String) : Option Json :=
  (m.find? (fun p => p.1 == k)).map Prod.snd

/-- Go map indexing `m[k]`: the stored value, or the nil interface when
the key is absent. -/
def jGet (m : JObj) (k : String) : Json :=
  (jLookup m k).getD Json.null

/-- Go map assignment `m[k] = v`: replace the binding of `k` if present,
otherwise append it. -/
def jInsert (m : JObj) (k : String) (v : Json) : JObj :=
  match m.any (fun p => p.1 == k) with
  | true => m.map (fun p => if p.1 == k then (k, v) else p)
  | false => m ++ [(k, v)]

/-- Go `error` values produced by the module, one constructor per
construction site. -/
inductive GoError where
  /-- `fmt.Errorf` in `Config.Validate`. -/
  | validationError (msg : String) : GoError
  /-- Underlying error from `http.NewRequest`, `client.Do` or
  `io.ReadAll`. -/
  | transportError (msg : String) : GoError
  /-- Underlying error from `json.Unmarshal`. -/
  | decodeError (msg : String) : GoError
  /-- `errors.Errorf("request failed with code %d, and no code in
  response body", resp.StatusCode)`. -/
  | noCodeInBody (status : Nat) : GoError
  /-- `errors.Errorf("request failed with code %d, and no message in
  response body", resp.StatusCode)`. -/
  | noMessageInBody (status : Nat) : GoError
  /-- `errors.Errorf("error fetching weather info, code: %d, message:
  %s", code, message)`. -/
  | apiError (code message : Json) : GoError
  /-- Error from `resource.NativeConfig` (external). -/
  | configError (msg : String) : GoError
  /-- Error produced by an external collaborator (the dependency
  sensor, `sensor.FromDependencies`). -/
  | external (msg : String) : GoError
  /-- `errors.Wrapf(cause, context)`. -/
  | wrap (context : String) (cause : GoError) : GoError

/-- The observable outcome of one HTTP fetch, as seen by
`getWeatherBodyOrCode`: a transport-level failure before a body was
decoded (error creating the request, sending it, or reading the body),
or a response with its status code and the result of `json.Unmarshal`
on its body. -/
inductive FetchResult where
  | transportErr (e : GoError) : FetchResult
  | response (status : Nat) (body : Except GoError JObj) : FetchResult

/-- `getWeatherBodyOrCode`: classify one fetch.  Returns the Go pair
`(map[string]any, error)`. -/
def getWeatherBodyOrCode (fr : FetchResult) : Option JObj × Option GoError :=
  match fr with
  | .transportErr e => (none, some e)
  | .response _ (.error e) => (none, some e)
  | .response status (.ok responseJSON) =>
    if status ≠ 200 then
      match jLookup responseJSON "code" with
      | none => (none, some (.noCodeInBody status))
      | some code =>
        match jLookup responseJSON "message" with
        | none => (none, some (.noMessageInBody status))
        | some message => (some responseJSON, some (.apiError code message))
    else
      (some responseJSON, none)

/-- The native configuration struct. -/
structure Config where
  temperatureSensor : String
  zipcode : Int
  apiKey : String

/-- `Config.Validate`: returns the Go triple
`([]string, []string, error)`, with `none` for a nil slice. -/
def Config.Validate (cfg : Config) (path : String) :
    Option (List String) × Option (List String) × Option GoError :=
  if cfg.temperatureSensor = "" then
    (none, none, some (.validationError "expected \"temp-sensor\" attribute for weather module"))
  else if cfg.apiKey = "" then
    (none, none, some (.validationError "expected \"apikey\" attribute for weather module"))
  else if cfg.zipcode = 0 then
    (none, none, some (.validationError "expected \"zipcode\" attribute for weather module"))
  else
    (some [cfg.temperatureSensor], none, none)

/-- Result of a Go function returning `(map[string]any, error)` that can
additionally panic (failed type assertion). -/
inductive Outcome (α : Type) where
  | ok (a : α) : Outcome α
  | err (e : GoError) : Outcome α
  | panic : Outcome α

/-- The environment a single `Readings` invocation runs against: the two
HTTP fetch outcomes and the dependency temperature sensor, the latter as
a function of the `extra` argument passed to its `Readings` method. -/
structure ReadingsEnv where
  currentWeather : FetchResult
  astronomy : FetchResult
  depReadings : Option JObj → Except GoError JObj

/-- An observable outbound call made by `Readings`. -/
inductive Call where
  | fetchCurrent : Call
  | fetchAstronomy : Call
  | depSensor (extra : Option JObj) : Call

/-- The field-extraction block of `Readings` between the two successful
fetches and the dependency-sensor call: builds `output` up to and
including `is_day`.  `none` is a Go panic (failed type assertion on
`current`, `condition`, `cloud`, `astronomy` or `astro`). -/
def composeOutput (response astronomyResponse : JObj) : Option JObj :=
  match jGet response "current" with
  | .obj currentWeather =>
    let output := jInsert [] "outside_f" (jGet currentWeather "temp_f")
    match jGet currentWeather "condition" with
    | .obj cond =>
      let output := jInsert output "condition" (jGet cond "text")
      match jGet currentWeather "condition" with
      | .obj cond2 =>
        let output := jInsert output "code" (jGet cond2 "code")
        match jGet currentWeather "cloud" with
        | .num cloud =>
          let output := jInsert output "cloud_cover_pct" (Json.num cloud)
          let output := jInsert output "precipitation_inches" (jGet currentWeather "precip_in")
          match jGet astronomyResponse "astronomy" with
          | .obj astrOuter =>
            match jGet astrOuter "astro" with
            | .obj astro => some (jInsert output "is_day" (jGet astro "is_sun_up"))
            | _ => none
          | _ => none
        | _ => none
      | _ => none
    | _ => none
  | _ => none

/-- `Readings`, instrumented with the ordered list of outbound calls it
makes.  Mirrors the Go method body: current-conditions fetch, astronomy
fetch, field extraction, dependency-sensor call, Celsius-to-Fahrenheit
conversion.  A Go `return nil, err` is `Outcome.err`; a nil map returned
with a nil error behaves as an empty map under indexing (`getD []`). -/
def ReadingsT (env : ReadingsEnv) (extra : Option JObj) : Outcome JObj × List Call :=
  match getWeatherBodyOrCode env.currentWeather with
  | (_, some e) => (.err e, [.fetchCurrent])
  | (response?, none) =>
    match getWeatherBodyOrCode env.astronomy with
    | (_, some e) => (.err e, [.fetchCurrent, .fetchAstronomy])
    | (astronomyResponse?, none) =>
      match composeOutput (response?.getD []) (astronomyResponse?.getD []) with
      | none => (.panic, [.fetchCurrent, .fetchAstronomy])
      | some output =>
        match env.depReadings none with
        | .error e =>
          (.err (.wrap "error getting reading from temp sensor" e),
           [.fetchCurrent, .fetchAstronomy, .depSensor none])
        | .ok readings =>
          match jGet readings "degrees_celsius" with
          | .num insideTempC =>
            (.ok (jInsert output "inside_f" (Json.num (insideTempC * 9 / 5 + 32))),
             [.fetchCurrent, .fetchAstronomy, .depSensor none])
          | _ => (.panic, [.fetchCurrent, .fetchAstronomy, .depSensor none])

/-- `Readings`: the returned `(map[string]any, error)` (or panic). -/
def Readings (env : ReadingsEnv) (extra : Option JObj) : Outcome JObj :=
  (ReadingsT env extra).1

/-- An opaque handle to a resolved sensor resource. -/
structure SensorHandle where
  id : Nat

/-- The mutable fields of the adapter touched by `Reconfigure`. -/
structure AdapterState where
  temperatureSensor : Option SensorHandle
  apiKey : String
  zipcode : Int

/-- `Reconfigure`: `conf` is the result of `resource.NativeConfig`,
`fromDependencies` the Go pair returned by `sensor.FromDependencies`.
Returns the updated state and the Go error.  The multi-assignment
`s.temperatureSensor, err = sensor.FromDependencies(...)` stores the
first component even when the second is an error. -/
def Reconfigure (s : AdapterState) (conf : Except GoError Config)
    (fromDependencies : String → Option SensorHandle × Option GoError) :
    AdapterState × Option GoError :=
  match conf with
  | .error e => (s, some e)
  | .ok sensorConfig =>
    match fromDependencies sensorConfig.temperatureSensor with
    | (sens, some e) =>
      ({ s with temperatureSensor := sens },
       some (.wrap ("unable to get temperature sensor " ++ sensorConfig.temperatureSensor ++ " for weather sensor") e))
    | (sens, none) =>
      ({ temperatureSensor := sens,
         apiKey := sensorConfig.apiKey,
         zipcode := sensorConfig.zipcode }, none)

/-- Predicate on a pair of decoded weather bodies: `true` exactly when
the extraction block of `Readings` hits a failing type assertion, i.e.
when `current` is not an object, `current.condition` is not an object,
`current.cloud` is not a number, `astronomy` is not an object, or
`astronomy.astro` is not an object. -/
def weatherShapeFault (response astronomyResponse : JObj) : Bool :=
  match jGet response "current" with
  | .obj currentWeather =>
    (match jGet currentWeather "condition" with
     | .obj _ => false
     | _ => true) ||
    (match jGet currentWeather "cloud" with
     | .num _ => false
     | _ => true) ||
    (match jGet astronomyResponse "astronomy" with
     | .obj astrOuter =>
       (match jGet astrOuter "astro" with
        | .obj _ => false
        | _ => true)
     | _ => true)
  | _ => true

/-- Predicate on a dependency-sensor reading: `true` exactly when the
type assertion `readings["degrees_celsius"].(float64)` fails. -/
def depShapeFault (readings : JObj) : Bool :=
  match jGet readings "degrees_celsius" with
  | .num _ => false
  | _ => true

/-- A well-formed current-conditions body, used in concrete runs. -/
def okCurrentBody : JObj :=
  [("current", Json.obj [("temp_f", Json.num 70),
                         ("condition", Json.obj [("text", Json.str "Sunny"), ("code", Json.num 1000)]),
                         ("cloud", Json.num 25),
                         ("precip_in", Json.num 0)])]

/-- A well-formed astronomy body, used in concrete runs. -/
def okAstroBody : JObj :=
  [("astronomy", Json.obj [("astro", Json.obj [("is_sun_up", Json.num 1)])])]

/-- An environment in which both fetches return well-formed 200
responses and the dependency sensor reads `c` degrees Celsius. -/
def okDepEnv (c : Rat) : ReadingsEnv :=
  { currentWeather := .response 200 (.ok okCurrentBody)
  , astronomy := .response 200 (.ok okAstroBody)
  , depReadings := fun _ => .ok [("degrees_celsius", Json.num c)] }

/-- A current-conditions body whose shape deviates from the documented
one: the `current` object carries no `temp_f` field. -/
def noTempFCurrentBody : JObj :=
  [("current", Json.obj [("condition", Json.obj [("text", Json.str "Sunny"), ("code", Json.num 1000)]),
                         ("cloud", Json.num 25),
                         ("precip_in", Json.num 0)])]

/-- An environment whose 200-status current-conditions body lacks
`current.temp_f` while everything else is well-formed. -/
def noTempFEnv : ReadingsEnv :=
  { currentWeather := .response 200 (.ok noTempFCurrentBody)
  , astronomy := .response 200 (.ok okAstroBody)
  , depReadings := fun _ => .ok [("degrees_celsius", Json.num 20)] }

/- Helper lemmas about the association-list map operations. -/

theorem keys_any_eq_false {m : JObj} {k : String} (h : k ∉ m.map Prod.fst) :
    m.any (fun p => p.1 == k) = false := by
  rw [List.any_eq_false]
  intro p hp hpk
  apply h
  have hk : p.1 = k := by simpa using hpk
  exact hk ▸ List.mem_map_of_mem Prod.fst hp

theorem jInsert_map_fst_of_not_mem (m : JObj) (k : String) (v : Json)
    (h : k ∉ m.map Prod.fst) :
    (jInsert m k v).map Prod.fst = m.map Prod.fst ++ [k] := by
  unfold jInsert
  rw [keys_any_eq_false h]
  simp

theorem jGet_jInsert_self (m : JObj) (k : String) (v : Json)
    (h : k ∉ m.map Prod.fst) :
    jGet (jInsert m k v) k = v := by
  have hfind : m.find? (fun p => p.1 == k) = none := by
    rw [List.find?_eq_none]
    intro p hp hpk
    apply h
    have hk : p.1 = k := by simpa using hpk
    exact hk ▸ List.mem_map_of_mem Prod.fst hp
  unfold jGet jLookup jInsert
  rw [keys_any_eq_false h]
  simp [List.find?_append, hfind]

theorem composeOutput_map_fst {response astronomyResponse out : JObj}
    (h : composeOutput response astronomyResponse = some out) :
    out.map Prod.fst =
      ["outside_f", "condition", "code", "cloud_cover_pct", "precipitation_inches", "is_day"] := by
  unfold composeOutput at h
  repeat split at h
  all_goals first
    | exact Option.noConfusion h
    | (rename_i hcontra; exact (hcontra _ rfl).elim)
    | (injection h with h; subst h; rfl)

/-- Inversion of a successful `Readings` run: the shapes succeeded, the
dependency sensor answered, and the result is the extraction output
extended with the converted inside temperature. -/
theorem readings_ok_inv (env : ReadingsEnv) (extra : Option JObj) (m : JObj)
    (h : Readings env extra = .ok m) :
    ∃ output readings insideTempC,
      composeOutput (((getWeatherBodyOrCode env.currentWeather).1).getD [])
          (((getWeatherBodyOrCode env.astronomy).1).getD []) = some output ∧
      env.depReadings none = .ok readings ∧
      jGet readings "degrees_celsius" = Json.num insideTempC ∧
      m = jInsert output "inside_f" (Json.num (insideTempC * 9 / 5 + 32)) := by
  unfold Readings ReadingsT at h
  repeat' split at h
  all_goals simp_all

/-- C1: for every successful invocation of `Readings` the returned
mapping contains exactly the seven keys `outside_f, condition, code,
cloud_cover_pct, precipitation_inches, is_day, inside_f` — no key
absent and no extra key (the key list is exactly this one). -/
theorem claim_C1_readings_exact_keys (env : ReadingsEnv) (extra : Option JObj) (m : JObj)
    (h : Readings env extra = .ok m) :
    m.map Prod.fst = ["outside_f", "condition", "code", "cloud_cover_pct",
      "precipitation_inches", "is_day", "inside_f"] := by
  obtain ⟨output, readings, c, hco, hdep, hdeg, hm⟩ := readings_ok_inv env extra m h
  subst hm
  rw [jInsert_map_fst_of_not_mem _ _ _ (by rw [composeOutput_map_fst hco]; decide),
    composeOutput_map_fst hco]
  rfl

/-- Witness for C1: a concrete successful run and its key list. -/
theorem claim_C1_readings_exact_keys_witness :
    Readings (okDepEnv 0) none =
      Outcome.ok [("outside_f", Json.num 70), ("condition", Json.str "Sunny"),
        ("code", Json.num 1000), ("cloud_cover_pct", Json.num 25),
        ("precipitation_inches", Json.num 0), ("is_day", Json.num 1),
        ("inside_f", Json.num (0 * 9 / 5 + 32))] ∧
    List.map Prod.fst [("outside_f", Json.num 70), ("condition", Json.str "Sunny"),
        ("code", Json.num 1000), ("cloud_cover_pct", Json.num 25),
        ("precipitation_inches", Json.num 0), ("is_day", Json.num 1),
        ("inside_f", Json.num (0 * 9 / 5 + 32))] =
      ["outside_f", "condition", "code", "cloud_cover_pct",
       "precipitation_inches", "is_day", "inside_f"] :=
  ⟨rfl, claim_C1_readings_exact_keys (okDepEnv 0) none _ rfl⟩

/-- C2: for every successful invocation of `Readings`, the `inside_f`
value is the dependency reading's `degrees_celsius` value `c` converted
by `F = c * 9/5 + 32` (over the rationals modelling Go float64). -/
theorem claim_C2_inside_f_conversion (env : ReadingsEnv) (extra : Option JObj)
    (m readings : JObj) (c : Rat)
    (h : Readings env extra = .ok m)
    (hdep : env.depReadings none = .ok readings)
    (hdeg : jGet readings "degrees_celsius" = Json.num c) :
    jGet m "inside_f" = Json.num (c * 9 / 5 + 32) := by
  obtain ⟨output, readings2, c2, hco, hdep2, hdeg2, hm⟩ := readings_ok_inv env extra m h
  rw [hdep] at hdep2
  injection hdep2 with hr
  subst hr
  rw [hdeg] at hdeg2
  injection hdeg2 with hc
  subst hc
  subst hm
  exact jGet_jInsert_self _ _ _ (by rw [composeOutput_map_fst hco]; decide)

/-- Witness for C2: concrete runs with `degrees_celsius = 0` and
`degrees_celsius = 100` give `inside_f = 32` and `inside_f = 212`. -/
theorem claim_C2_inside_f_conversion_witness :
    jGet [("outside_f", Json.num 70), ("condition", Json.str "Sunny"),
        ("code", Json.num 1000), ("cloud_cover_pct", Json.num 25),
        ("precipitation_inches", Json.num 0), ("is_day", Json.num 1),
        ("inside_f", Json.num (0 * 9 / 5 + 32))] "inside_f" = Json.num 32 ∧
    jGet [("outside_f", Json.num 70), ("condition", Json.str "Sunny"),
        ("code", Json.num 1000), ("cloud_cover_pct", Json.num 25),
        ("precipitation_inches", Json.num 0), ("is_day", Json.num 1),
        ("inside_f", Json.num (100 * 9 / 5 + 32))] "inside_f" = Json.num 212 := by
  constructor
  · exact (claim_C2_inside_f_conversion (okDepEnv 0) none _
      [("degrees_celsius", Json.num 0)] 0 rfl rfl rfl).trans
      (congrArg Json.num (by norm_num))
  · exact (claim_C2_inside_f_conversion (okDepEnv 100) none _
      [("degrees_celsius", Json.num 100)] 100 rfl rfl rfl).trans
      (congrArg Json.num (by norm_num))

/-- C3: `Config.Validate` errors exactly when the temp-sensor string is
empty, the apikey string is empty, or the zipcode is zero; the checks
run in that order, the first failing check returns an error naming the
missing attribute and no further error is aggregated, and on success it
returns the singleton dependency list `[temp-sensor]`. -/
theorem claim_C3_validate (cfg : Config) (path : String) :
    ((cfg.Validate path).2.2.isSome ↔
      cfg.temperatureSensor = "" ∨ cfg.apiKey = "" ∨ cfg.zipcode = 0) ∧
    (cfg.temperatureSensor = "" →
      cfg.Validate path = (none, none,
        some (.validationError "expected \"temp-sensor\" attribute for weather module"))) ∧
    (cfg.temperatureSensor ≠ "" → cfg.apiKey = "" →
      cfg.Validate path = (none, none,
        some (.validationError "expected \"apikey\" attribute for weather module"))) ∧
    (cfg.temperatureSensor ≠ "" → cfg.apiKey ≠ "" → cfg.zipcode = 0 →
      cfg.Validate path = (none, none,
        some (.validationError "expected \"zipcode\" attribute for weather module"))) ∧
    (cfg.temperatureSensor ≠ "" → cfg.apiKey ≠ "" → cfg.zipcode ≠ 0 →
      cfg.Validate path = (some [cfg.temperatureSensor], none, none)) := by
  by_cases h1 : cfg.temperatureSensor = "" <;>
    by_cases h2 : cfg.apiKey = "" <;>
    by_cases h3 : cfg.zipcode = 0 <;>
    simp [Config.Validate, h1, h2, h3]

/-- Witness for C3: a failing and a succeeding concrete configuration. -/
theorem claim_C3_validate_witness :
    Config.Validate ⟨"", 0, ""⟩ "components.0" = (none, none,
      some (.validationError "expected \"temp-sensor\" attribute for weather module")) ∧
    Config.Validate ⟨"thermo", 10001, "k1"⟩ "components.0" = (some ["thermo"], none, none) :=
  ⟨(claim_C3_validate ⟨"", 0, ""⟩ "components.0").2.1 rfl,
   (claim_C3_validate ⟨"thermo", 10001, "k1"⟩ "components.0").2.2.2.2
     (by decide) (by decide) (by decide)⟩

/-- C4: `Readings` consults its three data sources in the order
current-conditions fetch, astronomy fetch, dependency sensor, and aborts
at the first failure with no partial mapping (an `Outcome.err` carries no
mapping, mirroring Go's `return nil, err`): a current-conditions failure
leaves the trace at `[fetchCurrent]`, an astronomy failure at
`[fetchCurrent, fetchAstronomy]`; any trace is one of the three ordered
prefixes. -/
theorem claim_C4_order_and_abort (env : ReadingsEnv) (extra : Option JObj) (e : GoError) :
    ((getWeatherBodyOrCode env.currentWeather).2 = some e →
      ReadingsT env extra = (.err e, [.fetchCurrent])) ∧
    ((getWeatherBodyOrCode env.currentWeather).2 = none →
      (getWeatherBodyOrCode env.astronomy).2 = some e →
      ReadingsT env extra = (.err e, [.fetchCurrent, .fetchAstronomy])) ∧
    (ReadingsT env extra).2 ∈
      [[Call.fetchCurrent], [Call.fetchCurrent, Call.fetchAstronomy],
       [Call.fetchCurrent, Call.fetchAstronomy, Call.depSensor none]] := by
  refine ⟨?_, ?_, ?_⟩
  · intro h
    have hp : getWeatherBodyOrCode env.currentWeather =
        ((getWeatherBodyOrCode env.currentWeather).1, some e) := by rw [← h]
    unfold ReadingsT
    rw [hp]
  · intro h1 h2
    have hp1 : getWeatherBodyOrCode env.currentWeather =
        ((getWeatherBodyOrCode env.currentWeather).1, none) := by rw [← h1]
    have hp2 : getWeatherBodyOrCode env.astronomy =
        ((getWeatherBodyOrCode env.astronomy).1, some e) := by rw [← h2]
    unfold ReadingsT
    rw [hp1, hp2]
  · unfold ReadingsT
    repeat' split
    all_goals first
      | exact List.Mem.head _
      | exact List.mem_cons_of_mem _ (List.Mem.head _)
      | exact List.mem_cons_of_mem _ (List.mem_cons_of_mem _ (List.Mem.head _))

/-- An environment whose current-conditions fetch fails at the transport
level. -/
def currentFailEnv : ReadingsEnv :=
  { currentWeather := .transportErr (.transportError "dial tcp: timeout")
  , astronomy := .response 200 (.ok okAstroBody)
  , depReadings := fun _ => .ok [("degrees_celsius", Json.num 20)] }

/-- An environment whose astronomy fetch fails after a good
current-conditions fetch. -/
def astroFailEnv : ReadingsEnv :=
  { currentWeather := .response 200 (.ok okCurrentBody)
  , astronomy := .transportErr (.transportError "dial tcp: timeout")
  , depReadings := fun _ => .ok [("degrees_celsius", Json.num 20)] }

/-- Witness for C4: concrete failing fetches stop the run at the
corresponding point of the call order. -/
theorem claim_C4_order_and_abort_witness :
    ReadingsT currentFailEnv none =
      (.err (.transportError "dial tcp: timeout"), [.fetchCurrent]) ∧
    ReadingsT astroFailEnv none =
      (.err (.transportError "dial tcp: timeout"), [.fetchCurrent, .fetchAstronomy]) :=
  ⟨(claim_C4_order_and_abort currentFailEnv none (.transportError "dial tcp: timeout")).1 rfl,
   (claim_C4_order_and_abort astroFailEnv none (.transportError "dial tcp: timeout")).2.1 rfl rfl⟩

/-- C5: for a fetch whose status is not 200 and whose body parsed as a
JSON object, `getWeatherBodyOrCode` returns no body and an error naming
the status and the missing field when `code` or `message` is absent,
and returns the parsed body alongside an API error carrying the `code`
and `message` values when both are present. -/
theorem claim_C5_non200_classification (status : Nat) (body : JObj) (h200 : status ≠ 200) :
    (jLookup body "code" = none →
      getWeatherBodyOrCode (.response status (.ok body)) =
        (none, some (.noCodeInBody status))) ∧
    (∀ c, jLookup body "code" = some c → jLookup body "message" = none →
      getWeatherBodyOrCode (.response status (.ok body)) =
        (none, some (.noMessageInBody status))) ∧
    (∀ c msg, jLookup body "code" = some c → jLookup body "message" = some msg →
      getWeatherBodyOrCode (.response status (.ok body)) =
        (some body, some (.apiError c msg))) := by
  refine ⟨?_, ?_, ?_⟩
  · intro hc
    simp only [getWeatherBodyOrCode]
    rw [if_pos h200, hc]
  · intro c hc hm
    simp only [getWeatherBodyOrCode]
    rw [if_pos h200, hc, hm]
  · intro c msg hc hm
    simp only [getWeatherBodyOrCode]
    rw [if_pos h200, hc, hm]

/-- Witness for C5: a 500 response with both fields, and a 500 response
missing `code`. -/
theorem claim_C5_non200_classification_witness :
    getWeatherBodyOrCode (.response 500
        (.ok [("code", Json.num 1006), ("message", Json.str "No matching location found.")])) =
      (some [("code", Json.num 1006), ("message", Json.str "No matching location found.")],
       some (.apiError (Json.num 1006) (Json.str "No matching location found."))) ∧
    getWeatherBodyOrCode (.response 500 (.ok [("message", Json.str "m")])) =
      (none, some (.noCodeInBody 500)) :=
  ⟨(claim_C5_non200_classification 500
      [("code", Json.num 1006), ("message", Json.str "No matching location found.")]
      (by decide)).2.2 _ _ rfl rfl,
   (claim_C5_non200_classification 500 [("message", Json.str "m")] (by decide)).1 rfl⟩

/-- C7: regardless of HTTP status, a body that does not unmarshal into a
JSON object makes `getWeatherBodyOrCode` fail with the decode error and
no body; a 200 status with a parsed body returns the parsed object and
no error. -/
theorem claim_C7_decode_then_success (status : Nat) (e : GoError) (body : JObj) :
    getWeatherBodyOrCode (.response status (.error e)) = (none, some e) ∧
    getWeatherBodyOrCode (.response 200 (.ok body)) = (some body, none) := by
  refine ⟨rfl, ?_⟩
  unfold getWeatherBodyOrCode
  simp

/-- C8: when both weather fetches succeed and extraction completes, a
failing dependency-sensor read makes `Readings` fail with that error
wrapped with "error getting reading from temp sensor", and no mapping
is returned (`Outcome.err` carries none). -/
theorem claim_C8_dep_error_wrapped (env : ReadingsEnv) (extra : Option JObj)
    (out : JObj) (e : GoError)
    (h1 : (getWeatherBodyOrCode env.currentWeather).2 = none)
    (h2 : (getWeatherBodyOrCode env.astronomy).2 = none)
    (h3 : composeOutput ((getWeatherBodyOrCode env.currentWeather).1.getD [])
        ((getWeatherBodyOrCode env.astronomy).1.getD []) = some out)
    (h4 : env.depReadings none = .error e) :
    Readings env extra = .err (.wrap "error getting reading from temp sensor" e) := by
  have hp1 : getWeatherBodyOrCode env.currentWeather =
      ((getWeatherBodyOrCode env.currentWeather).1, none) := by rw [← h1]
  have hp2 : getWeatherBodyOrCode env.astronomy =
      ((getWeatherBodyOrCode env.astronomy).1, none) := by rw [← h2]
  unfold Readings ReadingsT
  rw [hp1, hp2]
  simp only [h3, h4]

/-- An environment whose dependency-sensor read fails after both
weather fetches succeed. -/
def depFailEnv : ReadingsEnv :=
  { currentWeather := .response 200 (.ok okCurrentBody)
  , astronomy := .response 200 (.ok okAstroBody)
  , depReadings := fun _ => .error (.external "sensor offline") }

/-- Witness for C8: a concrete run where only the dependency read
fails. -/
theorem claim_C8_dep_error_wrapped_witness :
    Readings depFailEnv none =
      .err (.wrap "error getting reading from temp sensor" (.external "sensor offline")) :=
  claim_C8_dep_error_wrapped depFailEnv none
    [("outside_f", Json.num 70), ("condition", Json.str "Sunny"), ("code", Json.num 1000),
     ("cloud_cover_pct", Json.num 25), ("precipitation_inches", Json.num 0),
     ("is_day", Json.num 1)]
    (.external "sensor offline") rfl rfl rfl rfl

/-- C10: `Readings` never reads its `extra` argument — two invocations
on the same environment with different `extra` maps have identical
results and traces — and every dependency-sensor call it makes passes a
nil `extra` map. -/
theorem claim_C10_extra_unused (env : ReadingsEnv) (extra1 extra2 : Option JObj) :
    ReadingsT env extra1 = ReadingsT env extra2 ∧
    ∀ x, Call.depSensor x ∈ (ReadingsT env extra1).2 → x = none := by
  refine ⟨rfl, ?_⟩
  intro x hx
  unfold ReadingsT at hx
  repeat' split at hx
  all_goals simp_all

/-- Witness for C10: a concrete run with two different `extra` maps, and
the nil-extra fact for its dependency call. -/
theorem claim_C10_extra_unused_witness :
    ReadingsT (okDepEnv 0) none = ReadingsT (okDepEnv 0) (some [("hint", Json.str "x")]) ∧
    (none : Option JObj) = none :=
  ⟨(claim_C10_extra_unused (okDepEnv 0) none (some [("hint", Json.str "x")])).1,
   (claim_C10_extra_unused (okDepEnv 0) none (some [("hint", Json.str "x")])).2 none
     (by have h : (ReadingsT (okDepEnv 0) none).2 =
           [Call.fetchCurrent, Call.fetchAstronomy, Call.depSensor none] := rfl
         rw [h]; simp)⟩

/-- C9: a `Reconfigure` call that returns an error leaves `apiKey` and
`zipcode` unchanged; `temperatureSensor` is assigned the resolution
result whenever config conversion succeeded (even on resolution
failure); only an error-free call updates `apiKey` and `zipcode` to the
new configuration's values. -/
theorem claim_C9_reconfigure_frame (s : AdapterState) (conf : Except GoError Config)
    (fromDependencies : String → Option SensorHandle × Option GoError) :
    (∀ s2 e, Reconfigure s conf fromDependencies = (s2, some e) →
      s2.apiKey = s.apiKey ∧ s2.zipcode = s.zipcode) ∧
    (∀ cfg, conf = .ok cfg →
      ((Reconfigure s conf fromDependencies).1.temperatureSensor =
        (fromDependencies cfg.temperatureSensor).1) ∧
      ((Reconfigure s conf fromDependencies).2 = none →
        (Reconfigure s conf fromDependencies).1.apiKey = cfg.apiKey ∧
        (Reconfigure s conf fromDependencies).1.zipcode = cfg.zipcode)) := by
  constructor
  · intro s2 e h
    cases conf with
    | error e0 =>
      unfold Reconfigure at h
      injection h with ha hb
      subst ha
      exact ⟨rfl, rfl⟩
    | ok cfg0 =>
      simp only [Reconfigure] at h
      rcases hfd : fromDependencies cfg0.temperatureSensor with ⟨sens, err⟩
      rw [hfd] at h
      cases err with
      | some e1 =>
        injection h with ha hb
        subst ha
        exact ⟨rfl, rfl⟩
      | none =>
        injection h with ha hb
        exact Option.noConfusion hb
  · intro cfg hcfg
    subst hcfg
    simp only [Reconfigure]
    rcases hfd : fromDependencies cfg.temperatureSensor with ⟨sens, err⟩
    cases err with
    | some e1 =>
      refine ⟨rfl, ?_⟩
      intro hn
      exact Option.noConfusion hn
    | none => exact ⟨rfl, fun _ => ⟨rfl, rfl⟩⟩

/-- Witness for C9: a failing resolution keeps the old credentials but
overwrites the sensor handle; a successful one installs the new ones. -/
theorem claim_C9_reconfigure_frame_witness :
    ((Reconfigure ⟨some ⟨1⟩, "oldkey", 90210⟩
        (.ok ⟨"thermo", 10001, "newkey"⟩)
        (fun _ => (none, some (.external "missing dependency")))).1.temperatureSensor =
      (none : Option SensorHandle)) ∧
    ((Reconfigure ⟨some ⟨1⟩, "oldkey", 90210⟩
        (.ok ⟨"thermo", 10001, "newkey"⟩)
        (fun _ => (none, some (.external "missing dependency")))).1.apiKey = "oldkey" ∧
     (Reconfigure ⟨some ⟨1⟩, "oldkey", 90210⟩
        (.ok ⟨"thermo", 10001, "newkey"⟩)
        (fun _ => (none, some (.external "missing dependency")))).1.zipcode = 90210) ∧
    ((Reconfigure ⟨some ⟨1⟩, "oldkey", 90210⟩
        (.ok ⟨"thermo", 10001, "newkey"⟩)
        (fun _ => (some ⟨2⟩, none))).1.apiKey = "newkey" ∧
     (Reconfigure ⟨some ⟨1⟩, "oldkey", 90210⟩
        (.ok ⟨"thermo", 10001, "newkey"⟩)
        (fun _ => (some ⟨2⟩, none))).1.zipcode = 10001) :=
  ⟨((claim_C9_reconfigure_frame ⟨some ⟨1⟩, "oldkey", 90210⟩
      (.ok ⟨"thermo", 10001, "newkey"⟩)
      (fun _ => (none, some (.external "missing dependency")))).2
      ⟨"thermo", 10001, "newkey"⟩ rfl).1,
   ((claim_C9_reconfigure_frame ⟨some ⟨1⟩, "oldkey", 90210⟩
      (.ok ⟨"thermo", 10001, "newkey"⟩)
      (fun _ => (none, some (.external "missing dependency")))).1
      _ _ rfl),
   ((claim_C9_reconfigure_frame ⟨some ⟨1⟩, "oldkey", 90210⟩
      (.ok ⟨"thermo", 10001, "newkey"⟩)
      (fun _ => (some ⟨2⟩, none))).2
      ⟨"thermo", 10001, "newkey"⟩ rfl).2 rfl⟩

/-- The extraction block panics exactly when the object spine or the
`cloud` number deviates from the documented shape. -/
theorem composeOutput_eq_none_iff (response astronomyResponse : JObj) :
    composeOutput response astronomyResponse = none ↔
      weatherShapeFault response astronomyResponse = true := by
  unfold composeOutput weatherShapeFault
  repeat' split
  all_goals first
    | (rename_i hcontra; exact (hcontra _ rfl).elim)
    | simp

/-- Counterexample to C6 as stated: a 200-status current-conditions
body that deviates from the documented shape (it has no
`current.temp_f` field) does not abort `Readings`; the run succeeds and
silently stores the nil interface as `outside_f`. -/
theorem claim_C6_counterexample :
    jLookup [("condition", Json.obj [("text", Json.str "Sunny"), ("code", Json.num 1000)]),
             ("cloud", Json.num 25), ("precip_in", Json.num 0)] "temp_f" = none ∧
    Readings noTempFEnv none =
      Outcome.ok [("outside_f", Json.null), ("condition", Json.str "Sunny"),
        ("code", Json.num 1000), ("cloud_cover_pct", Json.num 25),
        ("precipitation_inches", Json.num 0), ("is_day", Json.num 1),
        ("inside_f", Json.num 68)] := by
  refine ⟨rfl, ?_⟩
  have h : Readings noTempFEnv none =
      Outcome.ok [("outside_f", Json.null), ("condition", Json.str "Sunny"),
        ("code", Json.num 1000), ("cloud_cover_pct", Json.num 25),
        ("precipitation_inches", Json.num 0), ("is_day", Json.num 1),
        ("inside_f", Json.num (20 * 9 / 5 + 32))] := rfl
  rw [show (20 : Rat) * 9 / 5 + 32 = 68 by norm_num] at h
  exact h

/-- C6 (amended): after two successful fetches, `Readings` aborts with
an unrecoverable fault exactly when the nested object spine is broken
(`current`, `current.condition`, `astronomy`, `astronomy.astro` missing
or not objects, or `current.cloud` not a number) or, the spine being
sound, when the dependency reading was obtained but its
`degrees_celsius` field is missing or not a number; deviations confined
to the leaf fields `temp_f`, `condition.text`, `condition.code`,
`precip_in`, `is_sun_up` do not fault (the nil interface is stored
instead). -/
theorem claim_C6_amended_panic_iff (env : ReadingsEnv) (extra : Option JObj)
    (response? astronomyResponse? : Option JObj)
    (h1 : getWeatherBodyOrCode env.currentWeather = (response?, none))
    (h2 : getWeatherBodyOrCode env.astronomy = (astronomyResponse?, none)) :
    Readings env extra = .panic ↔
      weatherShapeFault (response?.getD []) (astronomyResponse?.getD []) = true ∨
      ∃ readings, env.depReadings none = .ok readings ∧ depShapeFault readings = true := by
  unfold Readings ReadingsT
  rw [h1, h2]
  rcases hco : composeOutput (response?.getD []) (astronomyResponse?.getD []) with _ | out
  · simp only [hco]
    simp [(composeOutput_eq_none_iff _ _).1 hco]
  · have hfault : weatherShapeFault (response?.getD []) (astronomyResponse?.getD []) = false := by
      cases hW : weatherShapeFault (response?.getD []) (astronomyResponse?.getD []) with
      | false => rfl
      | true => rw [(composeOutput_eq_none_iff _ _).2 hW] at hco; exact Option.noConfusion hco
    simp only [hco]
    rcases hdep : env.depReadings none with e | readings
    · simp [hfault, hdep]
    · rcases hdeg : jGet readings "degrees_celsius" with _ | b | q | s | elems | fields <;>
        simp [hfault, hdep, depShapeFault, hdeg]

/-- Witness for C6 (amended): a 200 body with no `current` object makes
the run panic. -/
theorem claim_C6_amended_panic_iff_witness :
    Readings { currentWeather := FetchResult.response 200 (Except.ok []),
               astronomy := FetchResult.response 200 (Except.ok okAstroBody),
               depReadings := fun _ => Except.ok [("degrees_celsius", Json.num 20)] } none =
      Outcome.panic :=
  (claim_C6_amended_panic_iff
      { currentWeather := FetchResult.response 200 (Except.ok []),
        astronomy := FetchResult.response 200 (Except.ok okAstroBody),
        depReadings := fun _ => Except.ok [("degrees_celsius", Json.num 20)] }
      none (some []) (some okAstroBody) rfl rfl).mpr (Or.inl rfl)

end WeatherSensor
